import Mathlib

/-!
Verification of the operator-dispatch runtime (a C++ demo dispatcher modeled
after deep-learning runtimes) against its natural-language specification.

The development shallowly embeds the C++ sources:
  * `DispatchKey.h` / `DispatchKeySet.cpp` — dispatch keys, priorities, bitset
    of keys with set algebra and highest-priority extraction;
  * `IValue.h` / `IValue.cpp` — the tagged boxed value;
  * `TensorImpl.cpp` — tensor stand-in, key-set derivation, global flags;
  * `OperatorHandle.h` / `OperatorHandle.cpp` — per-operator dispatch table,
    lookup, boxed call, the unboxing adapter;
  * `Dispatcher.h` / `Dispatcher.cpp` — registry, call statistics, callbacks.

C++ exceptions (`std::runtime_error`) are embedded as `Except DispatchError`;
the error-kind constructors follow the spec's classification of the throw
sites (§7), each carrying the exact message string built by the source.
-/

namespace DispatchDemo

/-- `DispatchKey.h`: the `DispatchKey` enum.  The constructor order mirrors the
C++ enumerator values `CPU=0, CUDA=1, Autograd=2, Tracing=3, Profiling=4,
Undefined=5, CatchAll=6`. -/
inductive DispatchKey where
  | CPU
  | CUDA
  | Autograd
  | Tracing
  | Profiling
  | Undefined
  | CatchAll
  deriving DecidableEq, Repr, Fintype

/-- `DispatchKeySet.cpp`, `toString(DispatchKey)`: debug name of a key. -/
def keyName : DispatchKey → String
  | .CPU => "CPU"
  | .CUDA => "CUDA"
  | .Autograd => "Autograd"
  | .Tracing => "Tracing"
  | .Profiling => "Profiling"
  | .Undefined => "Undefined"
  | .CatchAll => "CatchAll"

/-- `DispatchKeySet.cpp`, `dispatchKeyPriority`: smaller number means higher
priority. -/
def dispatchKeyPriority : DispatchKey → Nat
  | .Autograd => 0
  | .Tracing => 1
  | .Profiling => 2
  | .CPU => 10
  | .CUDA => 11
  | .CatchAll => 100
  | .Undefined => 255

/-- `DispatchKeySet.cpp`, `isBackendKey`. -/
def isBackendKey (key : DispatchKey) : Bool :=
  key = DispatchKey.CPU || key = DispatchKey.CUDA

/-- `DispatchKeySet.cpp`, `isFunctionalityKey`. -/
def isFunctionalityKey (key : DispatchKey) : Bool :=
  key = DispatchKey.Autograd || key = DispatchKey.Tracing ||
    key = DispatchKey.Profiling

/-- `DispatchKeySet.h`: the set is a `std::bitset<7>` indexed by the enum
value (`keyIndex`).  Each field holds the bit for one key, in enumerator
order: bit 0 = CPU, 1 = CUDA, 2 = Autograd, 3 = Tracing, 4 = Profiling,
5 = Undefined, 6 = CatchAll. -/
structure DispatchKeySet where
  cpu : Bool
  cuda : Bool
  autograd : Bool
  tracing : Bool
  profiling : Bool
  undefinedBit : Bool
  catchAllBit : Bool
  deriving DecidableEq, Repr

instance : Fintype DispatchKeySet :=
  Fintype.ofEquiv (Bool × Bool × Bool × Bool × Bool × Bool × Bool)
    { toFun := fun p => ⟨p.1, p.2.1, p.2.2.1, p.2.2.2.1, p.2.2.2.2.1,
        p.2.2.2.2.2.1, p.2.2.2.2.2.2⟩
      invFun := fun s => (s.cpu, s.cuda, s.autograd, s.tracing, s.profiling,
        s.undefinedBit, s.catchAllBit)
      left_inv := fun _ => rfl
      right_inv := fun _ => rfl }

namespace DispatchKeySet

/-- Default-constructed `DispatchKeySet` (all bits clear). -/
def emptySet : DispatchKeySet := ⟨false, false, false, false, false, false, false⟩

/-- `DispatchKeySet::add`: `raw_repr_.set(keyIndex(key))`. -/
def add (s : DispatchKeySet) : DispatchKey → DispatchKeySet
  | .CPU => { s with cpu := true }
  | .CUDA => { s with cuda := true }
  | .Autograd => { s with autograd := true }
  | .Tracing => { s with tracing := true }
  | .Profiling => { s with profiling := true }
  | .Undefined => { s with undefinedBit := true }
  | .CatchAll => { s with catchAllBit := true }

/-- `DispatchKeySet::remove`: `raw_repr_.reset(keyIndex(key))`. -/
def remove (s : DispatchKeySet) : DispatchKey → DispatchKeySet
  | .CPU => { s with cpu := false }
  | .CUDA => { s with cuda := false }
  | .Autograd => { s with autograd := false }
  | .Tracing => { s with tracing := false }
  | .Profiling => { s with profiling := false }
  | .Undefined => { s with undefinedBit := false }
  | .CatchAll => { s with catchAllBit := false }

/-- `DispatchKeySet::has`: `raw_repr_.test(keyIndex(key))`. -/
def has (s : DispatchKeySet) : DispatchKey → Bool
  | .CPU => s.cpu
  | .CUDA => s.cuda
  | .Autograd => s.autograd
  | .Tracing => s.tracing
  | .Profiling => s.profiling
  | .Undefined => s.undefinedBit
  | .CatchAll => s.catchAllBit

/-- `DispatchKeySet::empty`: `raw_repr_.none()`. -/
def empty (s : DispatchKeySet) : Bool :=
  !(s.cpu || s.cuda || s.autograd || s.tracing || s.profiling ||
    s.undefinedBit || s.catchAllBit)

/-- `DispatchKeySet::operator|`: bitwise or of the two bitsets. -/
def union (s t : DispatchKeySet) : DispatchKeySet :=
  ⟨s.cpu || t.cpu, s.cuda || t.cuda, s.autograd || t.autograd,
   s.tracing || t.tracing, s.profiling || t.profiling,
   s.undefinedBit || t.undefinedBit, s.catchAllBit || t.catchAllBit⟩

/-- `DispatchKeySet::operator&`: bitwise and of the two bitsets. -/
def inter (s t : DispatchKeySet) : DispatchKeySet :=
  ⟨s.cpu && t.cpu, s.cuda && t.cuda, s.autograd && t.autograd,
   s.tracing && t.tracing, s.profiling && t.profiling,
   s.undefinedBit && t.undefinedBit, s.catchAllBit && t.catchAllBit⟩

/-- `DispatchKeySet::operator-`: `raw_repr_ &= ~other.raw_repr_`. -/
def diff (s t : DispatchKeySet) : DispatchKeySet :=
  ⟨s.cpu && !t.cpu, s.cuda && !t.cuda, s.autograd && !t.autograd,
   s.tracing && !t.tracing, s.profiling && !t.profiling,
   s.undefinedBit && !t.undefinedBit, s.catchAllBit && !t.catchAllBit⟩

/-- `DispatchKeySet(std::initializer_list)`: add each key in order to the
default-constructed set. -/
def ofList (keys : List DispatchKey) : DispatchKeySet :=
  keys.foldl add emptySet

end DispatchKeySet

/-- The seven keys in enumerator order: the order in which the C++ loops
`for (int i = 0; i < NumDispatchKeys; ++i)` visit them. -/
def keysInEnumOrder : List DispatchKey :=
  [.CPU, .CUDA, .Autograd, .Tracing, .Profiling, .Undefined, .CatchAll]

/-- The comparator `dispatchKeyPriority a < dispatchKeyPriority b` passed to
`std::sort`, relaxed to `≤` so it is total; on the duplicate-free key lists
sorted here the priorities are injective, so the sorted result is the same. -/
def leByPriority (a b : DispatchKey) : Prop :=
  dispatchKeyPriority a ≤ dispatchKeyPriority b

instance : DecidableRel leByPriority := fun a b =>
  inferInstanceAs (Decidable (dispatchKeyPriority a ≤ dispatchKeyPriority b))

instance : IsTotal DispatchKey leByPriority :=
  ⟨fun a b => Nat.le_total (dispatchKeyPriority a) (dispatchKeyPriority b)⟩

instance : IsTrans DispatchKey leByPriority :=
  ⟨fun _ _ _ => Nat.le_trans⟩

/-- `std::sort(keys.begin(), keys.end(), priority comparator)`: `std::sort`'s
result is characterized by being a permutation sorted under the comparator;
since the priorities of distinct keys are distinct and the inputs are
duplicate-free sublists of `keysInEnumOrder`, that arrangement is unique and
equals the insertion sort used here. -/
def sortByPriority (l : List DispatchKey) : List DispatchKey :=
  List.insertionSort leByPriority l

namespace DispatchKeySet

/-- `DispatchKeySet::toVector`: collect the member keys in enumerator order,
then sort by ascending priority. -/
def toVector (s : DispatchKeySet) : List DispatchKey :=
  sortByPriority (keysInEnumOrder.filter s.has)

/-- `DispatchKeySet::highestPriorityKey`: `Undefined` on the empty set,
otherwise the head of the priority-sorted member list. -/
def highestPriorityKey (s : DispatchKeySet) : DispatchKey :=
  if s.empty then DispatchKey.Undefined
  else
    match sortByPriority (keysInEnumOrder.filter s.has) with
    | [] => DispatchKey.Undefined
    | k :: _ => k

/-- `DispatchKeySet::toString`: `"{}"` when empty, otherwise the key names in
priority order, comma-separated, inside braces. -/
def toString (s : DispatchKeySet) : String :=
  if s.empty then "\x7b\x7d"
  else "\x7b" ++ String.intercalate ", " (s.toVector.map keyName) ++ "\x7d"

end DispatchKeySet

/-- `TensorImpl.h`: the tensor stand-in.  Only the fields the dispatch core
consumes are modeled: `sizes_` (a vector of `int64_t`, no arithmetic is done
on them), `backend_key_`, `requires_grad_`.  A `std::shared_ptr<TensorImpl>`
is modeled by the tensor value itself (sharing is not observable through the
claims settled here). -/
structure TensorImpl where
  sizes : List Int
  backend_key : DispatchKey
  requires_grad : Bool
  deriving DecidableEq, Repr

/-- `TensorImpl.h`: the three process-wide feature flags of
`GlobalDispatchState`.  The C++ singleton is threaded explicitly. -/
structure GlobalDispatchState where
  autograd_enabled : Bool
  tracing_enabled : Bool
  profiling_enabled : Bool
  deriving DecidableEq, Repr

/-- `TensorImpl.cpp`, `GlobalDispatchState::computeFunctionalityKeys`: the set
of enabled functionality keys. -/
def GlobalDispatchState.computeFunctionalityKeys
    (g : GlobalDispatchState) : DispatchKeySet :=
  let result := DispatchKeySet.emptySet
  let result := if g.autograd_enabled then result.add .Autograd else result
  let result := if g.tracing_enabled then result.add .Tracing else result
  if g.profiling_enabled then result.add .Profiling else result

/-- `TensorImpl.cpp`, `TensorImpl::keySet`: backend key, plus `Autograd` when
`requires_grad_`, unioned with the global functionality keys. -/
def TensorImpl.keySet (t : TensorImpl) (g : GlobalDispatchState) : DispatchKeySet :=
  let result := DispatchKeySet.emptySet.add t.backend_key
  let result := if t.requires_grad then result.add .Autograd else result
  result.union g.computeFunctionalityKeys

/-- The C++ core throws `std::runtime_error` everywhere; the spec (§7)
classifies the throw sites into five kinds.  Each constructor carries the
exact message string built at the corresponding throw site. -/
inductive DispatchError where
  | UnknownOperator (msg : String)
  | NoKernel (msg : String)
  | InvalidKernel (msg : String)
  | ArityMismatch (msg : String)
  | TypeMismatch (msg : String)
  deriving DecidableEq, Repr

/-- `IValue.h` / `IValue.cpp`: the tagged boxed value.  One constructor per
`Tag`; the payloads follow the C++ union (`double` is modeled as `Float`,
`int64_t` as `Int` — neither is computed with in the core, only stored and
returned). -/
inductive IValue where
  | none
  | tensor (t : TensorImpl)
  | double (v : Float)
  | int (v : Int)
  | bool (b : Bool)
  | string (s : String)
  | intList (l : List Int)
  | doubleList (l : List Float)
  | tensorList (l : List TensorImpl)
  deriving Repr

namespace IValue

/-- `IValue::isNone`: `tag_ == Tag::None`. -/
def isNone : IValue → Bool
  | .none => true
  | _ => false

/-- `IValue::isTensor`. -/
def isTensor : IValue → Bool
  | .tensor _ => true
  | _ => false

/-- `IValue::isDouble`. -/
def isDouble : IValue → Bool
  | .double _ => true
  | _ => false

/-- `IValue::isInt`. -/
def isInt : IValue → Bool
  | .int _ => true
  | _ => false

/-- `IValue::isBool`. -/
def isBool : IValue → Bool
  | .bool _ => true
  | _ => false

/-- `IValue::isString`. -/
def isString : IValue → Bool
  | .string _ => true
  | _ => false

/-- `IValue::isIntList`. -/
def isIntList : IValue → Bool
  | .intList _ => true
  | _ => false

/-- `IValue::isDoubleList`. -/
def isDoubleList : IValue → Bool
  | .doubleList _ => true
  | _ => false

/-- `IValue::isTensorList`. -/
def isTensorList : IValue → Bool
  | .tensorList _ => true
  | _ => false

/-- `IValue::toTensor`: throws when the active variant is not `Tensor`,
otherwise returns the payload. -/
def toTensor : IValue → Except DispatchError TensorImpl
  | .tensor t => .ok t
  | _ => .error (.TypeMismatch "IValue is not a Tensor")

/-- `IValue::toDouble`. -/
def toDouble : IValue → Except DispatchError Float
  | .double v => .ok v
  | _ => .error (.TypeMismatch "IValue is not a Double")

/-- `IValue::toInt`. -/
def toInt : IValue → Except DispatchError Int
  | .int v => .ok v
  | _ => .error (.TypeMismatch "IValue is not an Int")

/-- `IValue::toBool`. -/
def toBool : IValue → Except DispatchError Bool
  | .bool b => .ok b
  | _ => .error (.TypeMismatch "IValue is not a Bool")

/-- `IValue::toString`. -/
def toString : IValue → Except DispatchError String
  | .string s => .ok s
  | _ => .error (.TypeMismatch "IValue is not a String")

/-- `IValue::toIntList`. -/
def toIntList : IValue → Except DispatchError (List Int)
  | .intList l => .ok l
  | _ => .error (.TypeMismatch "IValue is not an IntList")

/-- `IValue::toDoubleList`. -/
def toDoubleList : IValue → Except DispatchError (List Float)
  | .doubleList l => .ok l
  | _ => .error (.TypeMismatch "IValue is not a DoubleList")

/-- `IValue::toTensorList`. -/
def toTensorList : IValue → Except DispatchError (List TensorImpl)
  | .tensorList l => .ok l
  | _ => .error (.TypeMismatch "IValue is not a TensorList")

/-- The name of the `IValue::Tag` enumerator of the active variant
(`None`, `Tensor`, …), used to ask whether an error message mentions the
observed tag. -/
def tagName : IValue → String
  | .none => "None"
  | .tensor _ => "Tensor"
  | .double _ => "Double"
  | .int _ => "Int"
  | .bool _ => "Bool"
  | .string _ => "String"
  | .intList _ => "IntList"
  | .doubleList _ => "DoubleList"
  | .tensorList _ => "TensorList"

end IValue

/-- C8: constructing an `IValue` from a payload and reading it back with the
matching accessor returns the payload unchanged, for all nine variants
(`None` has no payload and no `toNone` accessor in the source; its round
trip is that the default-constructed value has the `None` tag). -/
theorem c8_value_round_trip :
    (IValue.none.isNone = true) ∧
    (∀ t : TensorImpl, (IValue.tensor t).toTensor = Except.ok t) ∧
    (∀ v : Float, (IValue.double v).toDouble = Except.ok v) ∧
    (∀ v : Int, (IValue.int v).toInt = Except.ok v) ∧
    (∀ b : Bool, (IValue.bool b).toBool = Except.ok b) ∧
    (∀ s : String, (IValue.string s).toString = Except.ok s) ∧
    (∀ l : List Int, (IValue.intList l).toIntList = Except.ok l) ∧
    (∀ l : List Float, (IValue.doubleList l).toDoubleList = Except.ok l) ∧
    (∀ l : List TensorImpl, (IValue.tensorList l).toTensorList = Except.ok l) :=
  ⟨rfl, fun _ => rfl, fun _ => rfl, fun _ => rfl, fun _ => rfl, fun _ => rfl,
   fun _ => rfl, fun _ => rfl, fun _ => rfl⟩

/-- `startsWithChars needle l`: `needle` is an initial segment of `l`. -/
def startsWithChars : List Char → List Char → Bool
  | [], _ => true
  | _ :: _, [] => false
  | c :: cs, d :: ds => c = d && startsWithChars cs ds

/-- `occursInChars needle l`: `needle` occurs contiguously inside `l`. -/
def occursInChars (needle : List Char) : List Char → Bool
  | [] => startsWithChars needle []
  | c :: cs => startsWithChars needle (c :: cs) || occursInChars needle cs

/-- "The message carries the tag `needle`": `needle` occurs as a contiguous
substring of the message. -/
def stringMentions (needle haystack : String) : Bool :=
  occursInChars needle.toList haystack.toList

/-- Counterexample for C7: `toTensor` on an `Int` value does fail, but the
message `"IValue is not a Tensor"` names only the expected tag — it does not
carry the observed tag `"Int"`, contrary to the claim. -/
theorem c7_counterexample_message_lacks_observed_tag :
    (IValue.int 3).toTensor =
      Except.error (DispatchError.TypeMismatch "IValue is not a Tensor") ∧
    stringMentions ((IValue.int 3).tagName) "IValue is not a Tensor" = false :=
  ⟨rfl, by decide⟩

/-- C7 as amended: calling the accessor of any variant other than the active
one fails with `TypeMismatch`, and the message carries the expected tag (the
accessor's variant) only — `"IValue is not a/an <expected>"`. -/
theorem c7_wrong_accessor_type_mismatch :
    (∀ v : IValue, v.isTensor = false →
      v.toTensor = .error (.TypeMismatch "IValue is not a Tensor")) ∧
    (∀ v : IValue, v.isDouble = false →
      v.toDouble = .error (.TypeMismatch "IValue is not a Double")) ∧
    (∀ v : IValue, v.isInt = false →
      v.toInt = .error (.TypeMismatch "IValue is not an Int")) ∧
    (∀ v : IValue, v.isBool = false →
      v.toBool = .error (.TypeMismatch "IValue is not a Bool")) ∧
    (∀ v : IValue, v.isString = false →
      v.toString = .error (.TypeMismatch "IValue is not a String")) ∧
    (∀ v : IValue, v.isIntList = false →
      v.toIntList = .error (.TypeMismatch "IValue is not an IntList")) ∧
    (∀ v : IValue, v.isDoubleList = false →
      v.toDoubleList = .error (.TypeMismatch "IValue is not a DoubleList")) ∧
    (∀ v : IValue, v.isTensorList = false →
      v.toTensorList = .error (.TypeMismatch "IValue is not a TensorList")) := by
  refine ⟨?_, ?_, ?_, ?_, ?_, ?_, ?_, ?_⟩ <;>
    · intro v h
      cases v <;> simp_all [IValue.isTensor, IValue.isDouble, IValue.isInt,
        IValue.isBool, IValue.isString, IValue.isIntList, IValue.isDoubleList,
        IValue.isTensorList, IValue.toTensor, IValue.toDouble, IValue.toInt,
        IValue.toBool, IValue.toString, IValue.toIntList, IValue.toDoubleList,
        IValue.toTensorList]

/-- Witness for the amended C7: an `Int` value is not a `Tensor`, and
`toTensor` on it fails with the `TypeMismatch` message naming `Tensor`. -/
theorem c7_wrong_accessor_type_mismatch_witness :
    (IValue.int 3).isTensor = false ∧
    (IValue.int 3).toTensor =
      .error (.TypeMismatch "IValue is not a Tensor") :=
  ⟨rfl, c7_wrong_accessor_type_mismatch.1 (IValue.int 3) rfl⟩

/-- `OperatorHandle.h`: `BoxedKernelFunction =
std::function<IValueList(const IValueList&)>`.  A boxed kernel may throw
(the unboxing adapter does), so it returns `Except`. -/
def BoxedKernelFunction := List IValue → Except DispatchError (List IValue)

/-- `OperatorHandle.h`, class `KernelFunction`: wraps a `BoxedKernelFunction`;
a default-constructed instance holds an empty `std::function`, modeled by
`none`. -/
structure KernelFunction where
  boxed_fn : Option BoxedKernelFunction

/-- `KernelFunction::isValid`. -/
def KernelFunction.isValid (k : KernelFunction) : Bool :=
  k.boxed_fn.isSome

/-- `OperatorHandle.cpp`, `KernelFunction::callBoxed`: throws `InvalidKernel`
on an invalid (default-constructed) kernel, otherwise runs the boxed
function. -/
def KernelFunction.callBoxed (k : KernelFunction) (args : List IValue) :
    Except DispatchError (List IValue) :=
  match k.boxed_fn with
  | none => .error (.InvalidKernel "Attempting to call invalid KernelFunction")
  | some f => f args

/-- The parameter types for which `OperatorHandle.h` specializes
`ivalue_to_arg` (`Tensor` and scalar types; the `const T&` specializations
behave identically and are not distinguished). -/
inductive ExpTy where
  | tensor
  | double
  | int
  | bool
  deriving DecidableEq, Repr

/-- An argument value after extraction by `ivalue_to_arg`, i.e. the natively
typed values a kernel can receive; also the native return values
(`arg_to_ivalue` re-boxes them). -/
inductive NativeArg where
  | tensor (t : TensorImpl)
  | double (v : Float)
  | int (v : Int)
  | bool (b : Bool)
  deriving Repr

/-- `OperatorHandle.h`, the `ivalue_to_arg<T>::convert` specializations: check
the tag (`throw "Expected <T> type"` on mismatch) and extract the payload. -/
def ivalue_to_arg (ty : ExpTy) (v : IValue) : Except DispatchError NativeArg :=
  match ty, v with
  | .tensor, .tensor t => .ok (.tensor t)
  | .tensor, _ => .error (.TypeMismatch "Expected Tensor type")
  | .double, .double x => .ok (.double x)
  | .double, _ => .error (.TypeMismatch "Expected Double type")
  | .int, .int x => .ok (.int x)
  | .int, _ => .error (.TypeMismatch "Expected Int type")
  | .bool, .bool b => .ok (.bool b)
  | .bool, _ => .error (.TypeMismatch "Expected Bool type")

/-- `OperatorHandle.h`, `arg_to_ivalue<T>::convert`: box a native value. -/
def arg_to_ivalue : NativeArg → IValue
  | .tensor t => .tensor t
  | .double v => .double v
  | .int v => .int v
  | .bool b => .bool b

/-- A natively typed kernel as the template machinery of `OperatorHandle.h`
sees it: `paramTypes` is `function_traits::arg_types` (so
`paramTypes.length` is `traits::arity`), and `native` is the function body,
taking the extracted arguments; a `none` result models a `void` return. -/
structure UnboxedKernel where
  paramTypes : List ExpTy
  native : List NativeArg → Option NativeArg

/-- `OperatorHandle.h`, `callUnboxedImpl`: extract each positional argument
with `ivalue_to_arg` (first failure propagates), invoke the native function,
and wrap the result (`wrapReturn`: empty list for `void`, singleton list
otherwise). -/
def callUnboxedImpl (k : UnboxedKernel) (args : List IValue) :
    Except DispatchError (List IValue) := do
  let nativeArgs ← (k.paramTypes.zip args).mapM fun p => ivalue_to_arg p.1 p.2
  match k.native nativeArgs with
  | none => pure []
  | some r => pure [arg_to_ivalue r]

/-- `OperatorHandle.h`, `KernelFunction::makeBoxedFromUnboxed`: the returned
boxed kernel first validates the argument count against the native arity
(the thrown message reports both counts), then delegates to
`callUnboxedImpl`. -/
def makeBoxedFromUnboxed (k : UnboxedKernel) : BoxedKernelFunction :=
  fun args =>
    if args.length ≠ k.paramTypes.length then
      .error (.ArityMismatch ("参数数量不匹配：期望 " ++
        toString k.paramTypes.length ++ " 个参数，实际得到 " ++
        toString args.length ++ " 个"))
    else callUnboxedImpl k args

/-- `OperatorHandle.h`: the per-operator dispatch table
(`std::unordered_map<DispatchKey, KernelFunction>`, keys unique) and the
operator name. -/
structure OperatorHandle where
  name : String
  dispatch_table : DispatchKey → Option KernelFunction

namespace OperatorHandle

/-- `OperatorHandle::setKernel`: insert or replace. -/
def setKernel (h : OperatorHandle) (key : DispatchKey) (k : KernelFunction) :
    OperatorHandle :=
  { h with dispatch_table := fun k' => if k' = key then some k else h.dispatch_table k' }

/-- `OperatorHandle::removeKernel`. -/
def removeKernel (h : OperatorHandle) (key : DispatchKey) : OperatorHandle :=
  { h with dispatch_table := fun k' => if k' = key then none else h.dispatch_table k' }

/-- `OperatorHandle::hasKernel`. -/
def hasKernel (h : OperatorHandle) (key : DispatchKey) : Bool :=
  (h.dispatch_table key).isSome

/-- `OperatorHandle.cpp`, `OperatorHandle::findKernel`: walk the
priority-sorted keys of `ks` and return the first kernel found; fall back to
the `CatchAll` entry. -/
def findKernel (h : OperatorHandle) (ks : DispatchKeySet) :
    Option KernelFunction :=
  match (ks.toVector).findSome? (fun key => h.dispatch_table key) with
  | some kern => some kern
  | none => h.dispatch_table DispatchKey.CatchAll

/-- `OperatorHandle.cpp`, `OperatorHandle::call(ks, args)`: throws `NoKernel`
(with operator name and the stringified key set) on a miss, otherwise invokes
the kernel. -/
def call (h : OperatorHandle) (ks : DispatchKeySet) (args : List IValue) :
    Except DispatchError (List IValue) :=
  match h.findKernel ks with
  | none => .error (.NoKernel ("No kernel found for operator '" ++ h.name ++
      "' with dispatch key set " ++ ks.toString))
  | some kern => kern.callBoxed args

/-- `OperatorHandle.cpp`, `OperatorHandle::computeDispatchKeySet`'s tensor
extraction loop: `Tensor` arguments contribute themselves, `TensorList`
arguments are flattened, every other variant contributes nothing. -/
def extractTensors : List IValue → List TensorImpl
  | [] => []
  | arg :: rest =>
    (match arg with
     | .tensor t => [t]
     | .tensorList ts => ts
     | _ => []) ++ extractTensors rest

end OperatorHandle

/-- `TensorImpl.cpp`, the free function `computeDispatchKeySet(tensors)`:
union the key sets of all tensors; when the union is empty (no tensors — in
the embedding tensors are values, never null), use the global functionality
keys. -/
def computeDispatchKeySetOfTensors (g : GlobalDispatchState)
    (tensors : List TensorImpl) : DispatchKeySet :=
  let combined := tensors.foldl (fun acc t => acc.union (t.keySet g))
    DispatchKeySet.emptySet
  if combined.empty then g.computeFunctionalityKeys else combined

/-- `OperatorHandle.cpp`, `OperatorHandle::computeDispatchKeySet` (a `const`
member using no state of the handle): extract the tensors, delegate to the
free function.  The C++ reads the `GlobalDispatchState` singleton; it is
threaded explicitly here. -/
def OperatorHandle.computeDispatchKeySet (_ : OperatorHandle)
    (g : GlobalDispatchState) (args : List IValue) : DispatchKeySet :=
  computeDispatchKeySetOfTensors g (OperatorHandle.extractTensors args)

/-- `OperatorHandle.cpp`, `OperatorHandle::call(args)` convenience overload:
derive the key set from the arguments, then dispatch. -/
def OperatorHandle.callAuto (h : OperatorHandle) (g : GlobalDispatchState)
    (args : List IValue) : Except DispatchError (List IValue) :=
  h.call (h.computeDispatchKeySet g args) args

/-- `OperatorHandle.cpp`, `OperatorHandle::getRegisteredKeys`: collect the
keys of the dispatch table and sort by priority.  The `unordered_map`
iteration order is unspecified, but sorting under the injective priorities
makes the result the unique priority-ascending arrangement, so collecting in
enumerator order loses nothing. -/
def OperatorHandle.getRegisteredKeys (h : OperatorHandle) : List DispatchKey :=
  sortByPriority (keysInEnumOrder.filter fun k => (h.dispatch_table k).isSome)

/-- `OperatorHandle.cpp`, `OperatorHandle::debugString`: header line, then one
indented `"<key>: registered"` line per registered key, closing brace. -/
def OperatorHandle.debugString (h : OperatorHandle) : String :=
  "OperatorHandle(" ++ h.name ++ ") \x7b\n" ++
    String.join (h.getRegisteredKeys.map fun k =>
      "  " ++ keyName k ++ ": registered\n") ++ "\x7d"

/-- Modelled from the spec's words for comparison with
`OperatorHandle.debugString` (C9): §4.4 states the debug string is
`"OperatorHandle(<name>) { <key>: registered; ... }"`, read as the entries
in priority order, `"; "`-separated, on one line inside the braces. -/
def specDebugString (h : OperatorHandle) : String :=
  "OperatorHandle(" ++ h.name ++ ") \x7b " ++
    String.intercalate "; " (h.getRegisteredKeys.map fun k =>
      keyName k ++ ": registered") ++ " \x7d"

/-- `Dispatcher.h`, `OperatorName`: base name plus overload name; the full
name is `name` when the overload is empty, otherwise `name + "." + overload`. -/
structure OperatorName where
  name : String
  overload_name : String
  deriving DecidableEq, Repr

/-- `OperatorName::fullName`. -/
def OperatorName.fullName (n : OperatorName) : String :=
  if n.overload_name = "" then n.name else n.name ++ "." ++ n.overload_name

/-- `Dispatcher.h`, `Dispatcher::CallStats`: call count plus per-key counters
(`std::unordered_map<DispatchKey, size_t>`, absent entries read as 0,
modeled as a total function). -/
structure CallStats where
  call_count : Nat
  key_counts : DispatchKey → Nat

/-- A `CallStats` entry as `operator[]` default-constructs it. -/
def emptyCallStats : CallStats := ⟨0, fun _ => 0⟩

/-- The mutable state of the `Dispatcher` singleton: operator registry,
registered callbacks (opaque identities — only the invocations they receive
are observable), the profiling flag, and the call-statistics map. -/
structure DispatcherState where
  operators : OperatorName → Option OperatorHandle
  registration_callbacks : List Nat
  profiling_enabled : Bool
  call_stats : OperatorName → Option CallStats

namespace DispatcherState

/-- `Dispatcher.cpp`, `Dispatcher::updateCallStats`: `call_stats_[name]`
(default-constructing when absent), then increment `call_count` and the
counter of `key`. -/
def updateCallStats (st : DispatcherState) (name : OperatorName)
    (key : DispatchKey) : DispatcherState :=
  let stats := (st.call_stats name).getD emptyCallStats
  let stats : CallStats :=
    { call_count := stats.call_count + 1
      key_counts := fun k =>
        if k = key then stats.key_counts k + 1 else stats.key_counts k }
  { st with call_stats := fun n => if n = name then some stats else st.call_stats n }

/-- `Dispatcher.cpp`, `Dispatcher::notifyRegistrationCallbacks`: invoke every
registered callback with `(name, registered)`; exceptions from callbacks are
swallowed, so the observable effect is exactly this invocation list. -/
def notifyRegistrationCallbacks (st : DispatcherState) (name : OperatorName)
    (registered : Bool) : List (Nat × OperatorName × Bool) :=
  st.registration_callbacks.map fun c => (c, name, registered)

/-- `Dispatcher.cpp`, `Dispatcher::deregisterOperator`: erase the entry and
notify callbacks with `(name, false)` only when the name is present;
otherwise do nothing.  Returns the new state and the callback invocations. -/
def deregisterOperator (st : DispatcherState) (name : OperatorName) :
    DispatcherState × List (Nat × OperatorName × Bool) :=
  match st.operators name with
  | none => (st, [])
  | some _ =>
    ({ st with operators := fun n => if n = name then none else st.operators n },
     st.notifyRegistrationCallbacks name false)

end DispatcherState

namespace Dispatcher

/-- `Dispatcher.cpp`, `Dispatcher::call(name, args)`: throw `UnknownOperator`
when the registry has no handle; otherwise let the handle dispatch (it
computes the key set from the arguments); only after the kernel returns
successfully — and only when profiling is enabled — recompute the key set
and update the statistics with its highest-priority key.  A thrown error
propagates with the state untouched. -/
def call (st : DispatcherState) (g : GlobalDispatchState) (name : OperatorName)
    (args : List IValue) :
    Except DispatchError (List IValue) × DispatcherState :=
  match st.operators name with
  | none =>
    (.error (.UnknownOperator ("Operator '" ++ name.fullName ++
      "' is not registered")), st)
  | some h =>
    match h.callAuto g args with
    | .error e => (.error e, st)
    | .ok result =>
      if st.profiling_enabled then
        (.ok result,
         st.updateCallStats name
           ((h.computeDispatchKeySet g args).highestPriorityKey))
      else (.ok result, st)

/-- `Dispatcher.cpp`, `Dispatcher::call(name, ks, args)`: as `call`, but with
a caller-supplied key set, whose highest-priority key is also the one
counted. -/
def callWithKeySet (st : DispatcherState) (name : OperatorName)
    (ks : DispatchKeySet) (args : List IValue) :
    Except DispatchError (List IValue) × DispatcherState :=
  match st.operators name with
  | none =>
    (.error (.UnknownOperator ("Operator '" ++ name.fullName ++
      "' is not registered")), st)
  | some h =>
    match h.call ks args with
    | .error e => (.error e, st)
    | .ok result =>
      if st.profiling_enabled then
        (.ok result, st.updateCallStats name ks.highestPriorityKey)
      else (.ok result, st)

end Dispatcher

/-! Concrete objects used by the witnesses and counterexamples. -/

/-- A boxed kernel that succeeds returning its arguments (witness for C1). -/
def w1Kernel : KernelFunction := ⟨some fun args => .ok args⟩

/-- Handle named `add` with only a CPU kernel (witness for C1). -/
def w1Handle : OperatorHandle :=
  ⟨"add", fun k => if k = DispatchKey.CPU then some w1Kernel else none⟩

/-- Handle named `mul` with an empty dispatch table (witness for C1). -/
def w1Empty : OperatorHandle := ⟨"mul", fun _ => none⟩

/-- The key set `{CPU, Autograd}` (witness for C1). -/
def w1Ks : DispatchKeySet :=
  DispatchKeySet.ofList [DispatchKey.CPU, DispatchKey.Autograd]

/-- A CPU tensor with `requires_grad` (witness for C2). -/
def w2Tensor : TensorImpl := ⟨[2, 2], DispatchKey.CPU, true⟩

/-- Argument list with one tensor and one scalar (witness for C2). -/
def w2Args : List IValue := [IValue.tensor w2Tensor, IValue.double 3.14]

/-- Global state with tracing enabled (witness for C2). -/
def w2Global : GlobalDispatchState := ⟨false, true, false⟩

/-- Handle used to invoke `computeDispatchKeySet` (witness for C2). -/
def w2Handle : OperatorHandle := ⟨"add", fun _ => none⟩

/-- A two-tensor native kernel: `f(Tensor, Tensor) -> Tensor` returning its
first argument (witness for C6). -/
def w6Kernel : UnboxedKernel :=
  ⟨[ExpTy.tensor, ExpTy.tensor], fun as => as.head?⟩

/-- A CPU tensor argument (witness for C6). -/
def w6Tensor : TensorImpl := ⟨[3], DispatchKey.CPU, false⟩

/-- Handle named `add` with only a CPU kernel (counterexample for C9). -/
def w9Handle : OperatorHandle :=
  ⟨"add", fun k => if k = DispatchKey.CPU then some (⟨some fun args => .ok args⟩ : KernelFunction) else none⟩

/-- A kernel that always succeeds with an empty result (witness for C5). -/
def w5Kernel : KernelFunction := ⟨some fun _ => .ok []⟩

/-- Handle named `op` with only a CatchAll kernel (witness for C5). -/
def w5Handle : OperatorHandle :=
  ⟨"op", fun k => if k = DispatchKey.CatchAll then some w5Kernel else none⟩

/-- The operator name `op` (witness for C5). -/
def w5Name : OperatorName := ⟨"op", ""⟩

/-- Dispatcher state with `op` registered, one callback, profiling on, empty
statistics (witness for C5). -/
def w5State : DispatcherState :=
  ⟨fun n => if n = w5Name then some w5Handle else none, [0], true, fun _ => none⟩

/-- All-flags-off global state (witness for C5). -/
def w5Global : GlobalDispatchState := ⟨false, false, false⟩

/-- The operator name `absent` (witnesses for C5 and C10). -/
def wAbsentName : OperatorName := ⟨"absent", ""⟩

/-- Dispatcher state with `op` registered and one callback (witness for
C10). -/
def w10State : DispatcherState :=
  ⟨fun n => if n = w5Name then some w5Handle else none, [0], false, fun _ => none⟩

/-! Helper lemmas shared by the claim theorems. -/

/-- Every dispatch key occurs in the enumerator-order list. -/
theorem mem_keysInEnumOrder : ∀ k : DispatchKey, k ∈ keysInEnumOrder := by
  decide

/-- `toVector` lists exactly the members of the set. -/
theorem mem_toVector (s : DispatchKeySet) (k : DispatchKey) :
    k ∈ s.toVector ↔ s.has k = true := by
  unfold DispatchKeySet.toVector sortByPriority
  rw [List.mem_insertionSort, List.mem_filter]
  exact ⟨fun h => h.2, fun h => ⟨mem_keysInEnumOrder k, h⟩⟩

/-- Membership in a union of key sets. -/
theorem has_union : ∀ (s t : DispatchKeySet) (k : DispatchKey),
    (s.union t).has k = (s.has k || t.has k) := by
  intro s t k; cases k <;> rfl

set_option maxRecDepth 8192 in
/-- Membership after `add`. -/
theorem has_add : ∀ (s : DispatchKeySet) (k' k : DispatchKey),
    (s.add k').has k = (s.has k || decide (k = k')) := by
  decide

/-- The empty set has no members. -/
theorem has_emptySet : ∀ k : DispatchKey, DispatchKeySet.emptySet.has k = false := by
  decide

set_option maxRecDepth 8192 in
/-- `empty` tests exactly the absence of every key. -/
theorem empty_iff_no_member : ∀ s : DispatchKeySet,
    s.empty = true ↔ ∀ k, s.has k = false := by
  decide

/-- Membership in a tensor's derived key set: backend key, `Autograd` when
`requires_grad`, plus the global functionality keys. -/
theorem keySet_has (t : TensorImpl) (g : GlobalDispatchState) (k : DispatchKey) :
    (t.keySet g).has k =
      (decide (k = t.backend_key) ||
       t.requires_grad && decide (k = DispatchKey.Autograd) ||
       g.computeFunctionalityKeys.has k) := by
  obtain ⟨sz, bk, rg⟩ := t
  cases rg <;>
    simp [TensorImpl.keySet, has_union, has_add, has_emptySet, Bool.or_assoc]

/-- Membership in a left fold of key-set unions. -/
theorem has_foldl_union (g : GlobalDispatchState) (k : DispatchKey) :
    ∀ (l : List TensorImpl) (acc : DispatchKeySet),
      (l.foldl (fun a t => a.union (t.keySet g)) acc).has k =
        (acc.has k || l.any fun t => (t.keySet g).has k) := by
  intro l
  induction l with
  | nil => intro acc; simp
  | cons t ts ih => intro acc; simp [ih, has_union, Bool.or_assoc]

/-- Relates `findSome?` (the loop in `findKernel`) to `find?` (the "first key
whose entry is present" phrasing of the spec). -/
theorem findSome?_of_find? {α β : Type} (f : α → Option β) :
    ∀ l : List α,
      (∀ a, l.find? (fun x => (f x).isSome) = some a → l.findSome? f = f a) ∧
      (l.find? (fun x => (f x).isSome) = none → l.findSome? f = none) := by
  intro l
  induction l with
  | nil => exact ⟨fun a h => by simp at h, fun _ => rfl⟩
  | cons x xs ih =>
    cases hfx : f x with
    | some b =>
      refine ⟨fun a h => ?_, fun h => ?_⟩
      · rw [List.find?_cons_of_pos _ (by simp [hfx])] at h
        cases h
        simp [List.findSome?_cons, hfx]
      · rw [List.find?_cons_of_pos _ (by simp [hfx])] at h
        cases h
    | none =>
      refine ⟨fun a h => ?_, fun h => ?_⟩
      · rw [List.find?_cons_of_neg _ (by simp [hfx])] at h
        simpa [List.findSome?_cons, hfx] using ih.1 a h
      · rw [List.find?_cons_of_neg _ (by simp [hfx])] at h
        simpa [List.findSome?_cons, hfx] using ih.2 h

/-- C1: kernel lookup walks the keys of `ks` in priority-ascending order and
returns the kernel of the first key present in the dispatch table; if no
member has a kernel, the `CatchAll` entry (possibly absent) decides; on a
miss `call` fails with `NoKernel` carrying the operator name and the
stringified key set; on a hit the boxed kernel is invoked with `args` and
its result returned unchanged. -/
theorem c1_kernel_lookup_and_call :
    ∀ (h : OperatorHandle) (ks : DispatchKeySet) (args : List IValue),
      List.Sorted leByPriority ks.toVector ∧
      (∀ k, k ∈ ks.toVector ↔ ks.has k = true) ∧
      (∀ k, ks.toVector.find? (fun key => (h.dispatch_table key).isSome) = some k →
        h.findKernel ks = h.dispatch_table k) ∧
      (ks.toVector.find? (fun key => (h.dispatch_table key).isSome) = none →
        h.findKernel ks = h.dispatch_table DispatchKey.CatchAll) ∧
      (h.findKernel ks = none →
        h.call ks args = .error (.NoKernel ("No kernel found for operator '" ++
          h.name ++ "' with dispatch key set " ++ ks.toString))) ∧
      (∀ kern, h.findKernel ks = some kern →
        h.call ks args = kern.callBoxed args) := by
  intro h ks args
  refine ⟨List.sorted_insertionSort _ _, fun k => mem_toVector ks k,
    ?_, ?_, ?_, ?_⟩
  · intro k hk
    have hsome : (h.dispatch_table k).isSome = true := by
      simpa using List.find?_some hk
    obtain ⟨kern, hkern⟩ := Option.isSome_iff_exists.mp hsome
    have := (findSome?_of_find? (fun key => h.dispatch_table key) ks.toVector).1 k hk
    simp [OperatorHandle.findKernel, this, hkern]
  · intro hk
    have := (findSome?_of_find? (fun key => h.dispatch_table key) ks.toVector).2 hk
    simp [OperatorHandle.findKernel, this]
  · intro hnone
    simp [OperatorHandle.call, hnone]
  · intro kern hkern
    simp [OperatorHandle.call, hkern]

/-- Witness for C1: on `{CPU, Autograd}` the handle with only a CPU kernel
resolves to its CPU entry; the handle with an empty table fails with the
`NoKernel` message. -/
theorem c1_kernel_lookup_and_call_witness :
    w1Handle.findKernel w1Ks = w1Handle.dispatch_table DispatchKey.CPU ∧
    w1Empty.call w1Ks [] = .error (.NoKernel ("No kernel found for operator '" ++
      w1Empty.name ++ "' with dispatch key set " ++ w1Ks.toString)) :=
  ⟨(c1_kernel_lookup_and_call w1Handle w1Ks []).2.2.1 DispatchKey.CPU (by decide),
   (c1_kernel_lookup_and_call w1Empty w1Ks []).2.2.2.2.1 rfl⟩

/-- C6: invoking the boxed form of a native kernel with a wrong argument
count fails with `ArityMismatch` whose message reports the expected and the
observed counts, and the native body is never consulted (the result is the
same for every native body with the same parameter list). -/
theorem c6_arity_mismatch :
    ∀ (k : UnboxedKernel) (args : List IValue),
      args.length ≠ k.paramTypes.length →
      makeBoxedFromUnboxed k args =
        .error (.ArityMismatch ("参数数量不匹配：期望 " ++
          toString k.paramTypes.length ++ " 个参数，实际得到 " ++
          toString args.length ++ " 个")) ∧
      ∀ f : List NativeArg → Option NativeArg,
        makeBoxedFromUnboxed ⟨k.paramTypes, f⟩ args =
          makeBoxedFromUnboxed k args := by
  intro k args h
  constructor
  · simp [makeBoxedFromUnboxed, h]
  · intro f
    simp [makeBoxedFromUnboxed, h]

/-- Witness for C6: the two-tensor kernel called with a single-element list
fails with expected = 2, observed = 1. -/
theorem c6_arity_mismatch_witness :
    ([IValue.tensor w6Tensor].length ≠ w6Kernel.paramTypes.length) ∧
    makeBoxedFromUnboxed w6Kernel [IValue.tensor w6Tensor] =
      .error (.ArityMismatch "参数数量不匹配：期望 2 个参数，实际得到 1 个") := by
  refine ⟨by decide, ?_⟩
  rw [(c6_arity_mismatch w6Kernel [IValue.tensor w6Tensor] (by decide)).1]
  rfl

/-- Counterexample for C9: the actual debug string of a handle with one CPU
kernel is newline-formatted, not the single-line `"{ <key>: registered; ...
}"` format the claim states (rendered by `specDebugString`). -/
theorem c9_counterexample_debug_string_format :
    w9Handle.debugString ≠ specDebugString w9Handle ∧
    w9Handle.debugString = "OperatorHandle(add) \x7b\n  CPU: registered\n\x7d" := by
  constructor
  · decide
  · rfl

/-- C9 as amended: `getRegisteredKeys` returns exactly the registered keys in
priority-ascending order, and `debugString` is
`"OperatorHandle(<name>) {\n"`, one `"  <key>: registered\n"` line per key in
that order, then `"}"`. -/
theorem c9_registered_keys_and_debug_string :
    ∀ h : OperatorHandle,
      List.Sorted leByPriority h.getRegisteredKeys ∧
      (∀ k, k ∈ h.getRegisteredKeys ↔ (h.dispatch_table k).isSome = true) ∧
      h.debugString = "OperatorHandle(" ++ h.name ++ ") \x7b\n" ++
        String.join (h.getRegisteredKeys.map fun k =>
          "  " ++ keyName k ++ ": registered\n") ++ "\x7d" := by
  intro h
  refine ⟨List.sorted_insertionSort _ _, fun k => ?_, rfl⟩
  unfold OperatorHandle.getRegisteredKeys sortByPriority
  rw [List.mem_insertionSort, List.mem_filter]
  exact ⟨fun hh => hh.2, fun hh => ⟨mem_keysInEnumOrder k, hh⟩⟩

/-- C2: `computeDispatchKeySet` unions `keySet` over all tensors collected
from `Tensor` and `TensorList` arguments; with no tensors it returns the
global functionality keys; non-tensor scalar arguments contribute nothing;
a tensor's `keySet` is its backend key, plus `Autograd` when
`requires_grad`, unioned with the global functionality keys. -/
theorem c2_compute_dispatch_key_set :
    ∀ (h : OperatorHandle) (g : GlobalDispatchState) (args : List IValue),
      (OperatorHandle.extractTensors args = [] →
        h.computeDispatchKeySet g args = g.computeFunctionalityKeys) ∧
      (OperatorHandle.extractTensors args ≠ [] → ∀ k,
        (h.computeDispatchKeySet g args).has k =
          ((OperatorHandle.extractTensors args).any fun t => (t.keySet g).has k)) ∧
      (∀ a : IValue, a.isTensor = false → a.isTensorList = false →
        h.computeDispatchKeySet g (a :: args) = h.computeDispatchKeySet g args) ∧
      (∀ (t : TensorImpl) (k : DispatchKey),
        (t.keySet g).has k =
          (decide (k = t.backend_key) ||
           t.requires_grad && decide (k = DispatchKey.Autograd) ||
           g.computeFunctionalityKeys.has k)) := by
  intro h g args
  refine ⟨?_, ?_, ?_, fun t k => keySet_has t g k⟩
  · intro he
    simp [OperatorHandle.computeDispatchKeySet, computeDispatchKeySetOfTensors,
      he, DispatchKeySet.emptySet, DispatchKeySet.empty]
  · intro hne k
    cases hl : OperatorHandle.extractTensors args with
    | nil => exact absurd hl hne
    | cons t ts =>
      have hmem : ((t :: ts).foldl (fun a x => a.union (x.keySet g))
          DispatchKeySet.emptySet).has t.backend_key = true := by
        rw [has_foldl_union]
        simp [keySet_has, has_emptySet]
      have hempty : ((t :: ts).foldl (fun a x => a.union (x.keySet g))
          DispatchKeySet.emptySet).empty = false := by
        cases hc : ((t :: ts).foldl (fun a x => a.union (x.keySet g))
            DispatchKeySet.emptySet).empty
        · rfl
        · have := (empty_iff_no_member _).mp hc t.backend_key
          rw [hmem] at this
          cases this
      simp only [OperatorHandle.computeDispatchKeySet,
        computeDispatchKeySetOfTensors, hl, hempty, Bool.false_eq_true,
        if_false]
      rw [has_foldl_union]
      simp [has_emptySet]
  · intro a h1 h2
    have he : OperatorHandle.extractTensors (a :: args) =
        OperatorHandle.extractTensors args := by
      cases a <;> simp_all [OperatorHandle.extractTensors, IValue.isTensor,
        IValue.isTensorList]
    simp [OperatorHandle.computeDispatchKeySet, he]

/-- Witness for C2: on `[tensor, 3.14]` the derived set is the union over the
extracted tensors; a prepended `Int` scalar changes nothing; a tensor-free
argument list yields the global functionality keys. -/
theorem c2_compute_dispatch_key_set_witness :
    ((w2Handle.computeDispatchKeySet w2Global w2Args).has DispatchKey.Autograd =
      ((OperatorHandle.extractTensors w2Args).any fun t =>
        (t.keySet w2Global).has DispatchKey.Autograd)) ∧
    (w2Handle.computeDispatchKeySet w2Global (IValue.int 7 :: w2Args) =
      w2Handle.computeDispatchKeySet w2Global w2Args) ∧
    (w2Handle.computeDispatchKeySet w2Global [IValue.int 7] =
      w2Global.computeFunctionalityKeys) :=
  ⟨(c2_compute_dispatch_key_set w2Handle w2Global w2Args).2.1
      (by decide) DispatchKey.Autograd,
   (c2_compute_dispatch_key_set w2Handle w2Global w2Args).2.2.1
      (IValue.int 7) rfl rfl,
   (c2_compute_dispatch_key_set w2Handle w2Global [IValue.int 7]).1 rfl⟩

/-- C5: through both `Dispatcher::call` overloads, statistics are updated
exactly when the kernel returns successfully and profiling is enabled — with
the counted key being the highest-priority key of the key set observed at
the call site — and a failed call leaves the whole dispatcher state
(registry and statistics) unchanged; `updateCallStats` increments
`call_count` and the counter of that key, touching nothing else. -/
theorem c5_stats_updated_only_on_success :
    ∀ (st : DispatcherState) (g : GlobalDispatchState) (name : OperatorName)
      (ks : DispatchKeySet) (args : List IValue),
      (∀ e, (Dispatcher.call st g name args).1 = .error e →
        (Dispatcher.call st g name args).2 = st) ∧
      (∀ res, (Dispatcher.call st g name args).1 = .ok res →
        (st.profiling_enabled = false → (Dispatcher.call st g name args).2 = st) ∧
        (st.profiling_enabled = true → ∀ h, st.operators name = some h →
          (Dispatcher.call st g name args).2 =
            st.updateCallStats name
              ((h.computeDispatchKeySet g args).highestPriorityKey))) ∧
      (∀ e, (Dispatcher.callWithKeySet st name ks args).1 = .error e →
        (Dispatcher.callWithKeySet st name ks args).2 = st) ∧
      (∀ res, (Dispatcher.callWithKeySet st name ks args).1 = .ok res →
        (st.profiling_enabled = false →
          (Dispatcher.callWithKeySet st name ks args).2 = st) ∧
        (st.profiling_enabled = true →
          (Dispatcher.callWithKeySet st name ks args).2 =
            st.updateCallStats name ks.highestPriorityKey)) ∧
      (∀ key,
        (st.updateCallStats name key).operators = st.operators ∧
        (∀ n, n ≠ name →
          (st.updateCallStats name key).call_stats n = st.call_stats n) ∧
        (st.updateCallStats name key).call_stats name =
          some { call_count :=
                   ((st.call_stats name).getD emptyCallStats).call_count + 1
                 key_counts := fun k =>
                   if k = key
                   then ((st.call_stats name).getD emptyCallStats).key_counts k + 1
                   else ((st.call_stats name).getD emptyCallStats).key_counts k }) := by
  intro st g name ks args
  refine ⟨?_, ?_, ?_, ?_, ?_⟩
  · intro e he
    cases hop : st.operators name with
    | none => simp [Dispatcher.call, hop]
    | some h =>
      cases hres : h.callAuto g args with
      | error e2 => simp [Dispatcher.call, hop, hres]
      | ok r =>
        simp [Dispatcher.call, hop, hres] at he
        cases hp : st.profiling_enabled <;> simp [hp] at he
  · intro res hres
    cases hop : st.operators name with
    | none => simp [Dispatcher.call, hop] at hres
    | some h =>
      cases hcall : h.callAuto g args with
      | error e2 => simp [Dispatcher.call, hop, hcall] at hres
      | ok r =>
        constructor
        · intro hp
          simp [Dispatcher.call, hop, hcall, hp]
        · intro hp h2 hop2
          have hh : h = h2 := Option.some.inj (hop ▸ hop2)
          subst hh
          simp [Dispatcher.call, hop, hcall, hp]
  · intro e he
    cases hop : st.operators name with
    | none => simp [Dispatcher.callWithKeySet, hop]
    | some h =>
      cases hres : h.call ks args with
      | error e2 => simp [Dispatcher.callWithKeySet, hop, hres]
      | ok r =>
        simp [Dispatcher.callWithKeySet, hop, hres] at he
        cases hp : st.profiling_enabled <;> simp [hp] at he
  · intro res hres
    cases hop : st.operators name with
    | none => simp [Dispatcher.callWithKeySet, hop] at hres
    | some h =>
      cases hcall : h.call ks args with
      | error e2 => simp [Dispatcher.callWithKeySet, hop, hcall] at hres
      | ok r =>
        constructor
        · intro hp
          simp [Dispatcher.callWithKeySet, hop, hcall, hp]
        · intro hp
          simp [Dispatcher.callWithKeySet, hop, hcall, hp]
  · intro key
    refine ⟨rfl, fun n hn => ?_, ?_⟩
    · simp [DispatcherState.updateCallStats, hn]
    · simp [DispatcherState.updateCallStats]

/-- Witness for C5: a successful profiled call through `op`'s CatchAll kernel
updates the statistics with the highest-priority key of the derived set; a
call to an unregistered name leaves the state unchanged. -/
theorem c5_stats_updated_only_on_success_witness :
    (Dispatcher.call w5State w5Global w5Name []).2 =
      w5State.updateCallStats w5Name
        ((w5Handle.computeDispatchKeySet w5Global []).highestPriorityKey) ∧
    (Dispatcher.call w5State w5Global wAbsentName []).2 = w5State :=
  ⟨((c5_stats_updated_only_on_success w5State w5Global w5Name
        DispatchKeySet.emptySet []).2.1 [] rfl).2 rfl w5Handle rfl,
   (c5_stats_updated_only_on_success w5State w5Global wAbsentName
        DispatchKeySet.emptySet []).1
     (.UnknownOperator ("Operator '" ++ wAbsentName.fullName ++
       "' is not registered")) rfl⟩

/-- C10: deregistering an absent name is a no-op (state unchanged, no
callback invoked); when the name is present, exactly its entry is erased and
every registered callback is invoked once with `(name, false)`. -/
theorem c10_deregister_absent_is_noop :
    ∀ (st : DispatcherState) (name : OperatorName),
      (st.operators name = none → st.deregisterOperator name = (st, [])) ∧
      (∀ h, st.operators name = some h →
        (st.deregisterOperator name).1.operators name = none ∧
        (∀ n, n ≠ name →
          (st.deregisterOperator name).1.operators n = st.operators n) ∧
        (st.deregisterOperator name).1.registration_callbacks =
          st.registration_callbacks ∧
        (st.deregisterOperator name).1.profiling_enabled =
          st.profiling_enabled ∧
        (st.deregisterOperator name).1.call_stats = st.call_stats ∧
        (st.deregisterOperator name).2 =
          st.registration_callbacks.map fun c => (c, name, false)) := by
  intro st name
  constructor
  · intro he
    simp [DispatcherState.deregisterOperator, he]
  · intro h he
    simp [DispatcherState.deregisterOperator,
      DispatcherState.notifyRegistrationCallbacks, he]
    intro n hn
    simp [hn]

/-- Witness for C10: deregistering the unregistered name `absent` changes
nothing and fires no callback; deregistering the registered `op` fires the
single callback with `(op, false)`. -/
theorem c10_deregister_absent_is_noop_witness :
    w10State.deregisterOperator wAbsentName = (w10State, []) ∧
    (w10State.deregisterOperator w5Name).2 = [(0, w5Name, false)] := by
  refine ⟨(c10_deregister_absent_is_noop w10State wAbsentName).1 rfl, ?_⟩
  rw [((c10_deregister_absent_is_noop w10State w5Name).2 w5Handle rfl).2.2.2.2.2]
  rfl

/-- C3: the priority function returns exactly `Autograd=0, Tracing=1,
Profiling=2, CPU=10, CUDA=11, CatchAll=100, Undefined=255` (lower number =
higher priority), and consequently every functionality key has strictly
higher priority (smaller number) than every backend key. -/
theorem c3_dispatch_key_priorities :
    (dispatchKeyPriority DispatchKey.Autograd = 0 ∧
     dispatchKeyPriority DispatchKey.Tracing = 1 ∧
     dispatchKeyPriority DispatchKey.Profiling = 2 ∧
     dispatchKeyPriority DispatchKey.CPU = 10 ∧
     dispatchKeyPriority DispatchKey.CUDA = 11 ∧
     dispatchKeyPriority DispatchKey.CatchAll = 100 ∧
     dispatchKeyPriority DispatchKey.Undefined = 255) ∧
    ∀ f b : DispatchKey, isFunctionalityKey f = true → isBackendKey b = true →
      dispatchKeyPriority f < dispatchKeyPriority b := by
  decide

/-- Witness for C3: `Autograd` (a functionality key) outranks `CPU`
(a backend key). -/
theorem c3_dispatch_key_priorities_witness :
    dispatchKeyPriority DispatchKey.Autograd < dispatchKeyPriority DispatchKey.CPU :=
  c3_dispatch_key_priorities.2 DispatchKey.Autograd DispatchKey.CPU
    (by decide) (by decide)

set_option maxRecDepth 8192 in
/-- C4: for every non-empty `DispatchKeySet`, `highestPriorityKey` is a member
whose priority number is ≤ the priority of every other member; on the empty
set it returns `Undefined`. -/
theorem c4_highest_priority_key :
    ∀ s : DispatchKeySet,
      (s.empty = false →
        s.has s.highestPriorityKey = true ∧
        ∀ k, s.has k = true →
          dispatchKeyPriority s.highestPriorityKey ≤ dispatchKeyPriority k) ∧
      (s.empty = true → s.highestPriorityKey = DispatchKey.Undefined) := by
  decide

/-- Witness for C4: on `{CPU, Autograd}` the highest-priority key is a member
and its priority is ≤ that of `CPU`; the empty set yields `Undefined`. -/
theorem c4_highest_priority_key_witness :
    ((DispatchKeySet.ofList [DispatchKey.CPU, DispatchKey.Autograd]).has
        (DispatchKeySet.ofList
          [DispatchKey.CPU, DispatchKey.Autograd]).highestPriorityKey = true ∧
      dispatchKeyPriority
          (DispatchKeySet.ofList
            [DispatchKey.CPU, DispatchKey.Autograd]).highestPriorityKey ≤
        dispatchKeyPriority DispatchKey.CPU) ∧
    DispatchKeySet.emptySet.highestPriorityKey = DispatchKey.Undefined :=
  ⟨⟨((c4_highest_priority_key _).1 (by decide)).1,
    ((c4_highest_priority_key _).1 (by decide)).2 DispatchKey.CPU (by decide)⟩,
   (c4_highest_priority_key _).2 (by decide)⟩

end DispatchDemo
